import Mathlib

/-!
Shallow embedding of the message-classification / issue-lifecycle /
auto-reply pipeline of the LINE-group monitoring server.

Sources embedded:
* `handleFeishuAutoReply`, `analyzeQuestionWithAI`, `checkBotNameMentioned`,
  `createIssueForQuestion` from the Feishu webhook route.
* `runAnalysis` (batch analysis service) with its tag-deduplication loop,
  staff-reply scan and customer-sentiment rollup.
* `getAllProviders` / `generateAnswerWithFallback` from the AI provider
  orchestrator.
* the issue read route (`GET /issues/:id`).

AI backends are modelled as pure oracles returning `Except Unit _`:
`.error` models a thrown/timeout/malformed-response failure, exactly where
the source would throw.  Database tables are lists inside a `DB` record;
Prisma uniqueness violations are modelled explicitly where the source can
hit them.
-/

namespace LineBot

/-- MemberRole enum from the Prisma schema. -/
inductive MemberRole where
  | STAFF
  | EXTERNAL_ADMIN
  | EXTERNAL
deriving DecidableEq, Repr

/-- IssueStatus enum from the Prisma schema. -/
inductive IssueStatus where
  | PENDING
  | REPLIED
  | WAITING_CUSTOMER
  | TIMEOUT
  | RESOLVED
  | IGNORED
deriving DecidableEq, Repr

/-- Sentiment enum from the Prisma schema. -/
inductive Sentiment where
  | POSITIVE
  | NEUTRAL
  | NEGATIVE
  | AT_RISK
deriving DecidableEq, Repr

/-- The three-valued sentiment strings returned by `analyzeQuestion`. -/
inductive Sent3 where
  | positive
  | neutral
  | negative
deriving DecidableEq, Repr

/-- The four-valued sentiment strings returned by `analyzeCustomerSentiment`. -/
inductive Sent4 where
  | positive
  | neutral
  | negative
  | at_risk
deriving DecidableEq, Repr

/-- `mapSentiment` from analysis.service. -/
def mapSentiment : Sent3 → Sentiment
  | .positive => .POSITIVE
  | .negative => .NEGATIVE
  | .neutral => .NEUTRAL

/-- `mapSentimentExtended` from analysis.service. -/
def mapSentimentExtended : Sent4 → Sentiment
  | .positive => .POSITIVE
  | .negative => .NEGATIVE
  | .at_risk => .AT_RISK
  | .neutral => .NEUTRAL

/-- Result shape of `AIProvider.analyzeQuestion`. -/
structure QuestionAnalysis where
  isQuestion : Bool
  confidence : Int
  summary : String
  sentiment : Sent3
  suggestedTags : List String
  suggestedReply : Option String
deriving DecidableEq, Repr

/-!  ## Feishu streaming auto-reply path  -/

/-- The four fields `analyzeQuestionWithAI` returns. -/
structure QuestionAnalysisLite where
  isQuestion : Bool
  confidence : Int
  summary : String
  sentiment : Sent3
deriving DecidableEq, Repr

/-- `analyzeQuestionWithAI` from the Feishu webhook route: the AI call is
wrapped in try/catch; on failure the message is assumed to be a question
with confidence 50 and a truncated summary.  `aiResult` is the outcome of
`(await getAIProvider()).analyzeQuestion content`, `.error` modelling a
throw.  (JS `string.length`/`substring` count UTF-16 units; on the ASCII
inputs of our theorems this coincides with Lean characters.) -/
def analyzeQuestionWithAI (aiResult : Except Unit QuestionAnalysis)
    (content : String) : QuestionAnalysisLite :=
  match aiResult with
  | .ok a =>
    { isQuestion := a.isQuestion
      confidence := a.confidence
      summary := a.summary
      sentiment := a.sentiment }
  | .error _ =>
    { isQuestion := true
      confidence := 50
      summary := if content.length > 100 then content.take 100 ++ "..." else content
      sentiment := .neutral }

/-- JS `String.prototype.includes`. -/
def strIncludes (s pat : String) : Bool :=
  pat == "" || (s.splitOn pat).length > 1

/-- `checkBotNameMentioned` from the Feishu webhook route. -/
def checkBotNameMentioned (content : String) (botName : Option String) : Bool :=
  match botName with
  | none => false
  | some bn =>
    if bn.trim == "" then false
    else
      let names := ((bn.splitOn ",").map String.trim).filter (fun n => n.length > 0)
      let contentLower := content.toLower
      names.any (fun n => strIncludes contentLower (n.toLower))

/-- Settings consumed by `handleFeishuAutoReply`. -/
structure FeishuSettings where
  autoReplyEnabled : Bool
  botName : Option String
  confidenceThreshold : Int
  notFoundReply : String
deriving DecidableEq, Repr

/-- The two columns of LineGroup selected by `handleFeishuAutoReply`. -/
structure GroupInfo where
  customerId : Option Nat
  autoReplyEnabled : Bool
deriving DecidableEq, Repr

/-- Shape of a non-null `searchKnowledge` result as consumed by the
Feishu route (`result.entry.id`, `result.entry.answer`,
`result.generatedAnswer`, `result.confidence`). -/
structure KnowledgeSearchResult where
  entryId : Nat
  entryAnswer : String
  generatedAnswer : Option String
  confidence : Int
deriving DecidableEq, Repr

/-- One `logAutoReply` call as issued by the Feishu route. -/
structure AutoReplyLogEntry where
  messageId : Nat
  answer : Option String
  knowledgeId : Option Nat
  matched : Bool
  confidence : Int
deriving DecidableEq, Repr

/-- The Issue row written by `createIssueForQuestion`. -/
structure FeishuIssue where
  questionSummary : String
  status : IssueStatus
  isQuestion : Bool
  sentiment : Sentiment
  suggestedReply : Option String
  timeoutAt : Int
  groupId : Nat
  customerId : Option Nat
  triggerMessageId : Nat
  repliedAt : Option Int
deriving DecidableEq, Repr

/-- Observable effects of one `handleFeishuAutoReply` call. -/
structure AutoReplyOutcome where
  searched : Bool
  repliesSent : List String
  logs : List AutoReplyLogEntry
  issues : List FeishuIssue
deriving DecidableEq, Repr

/-- `createIssueForQuestion` from the Feishu webhook route. -/
def createIssueForQuestion (timeoutMinutes now : Int) (messageId groupId : Nat)
    (customerId : Option Nat) (summary : String) (sentiment : Sent3)
    (autoReplied : Bool) (autoReplyAnswer : Option String) : FeishuIssue :=
  { questionSummary := summary
    status := if autoReplied then .REPLIED else .PENDING
    isQuestion := true
    sentiment := mapSentiment sentiment
    suggestedReply := autoReplyAnswer
    timeoutAt := now + timeoutMinutes * 60 * 1000
    groupId := groupId
    customerId := customerId
    triggerMessageId := messageId
    repliedAt := if autoReplied then some now else none }

/-- JS `a || b` on a nullable string: empty string also falls through. -/
def strOrElse (a : Option String) (b : String) : String :=
  match a with
  | some s => if s == "" then b else s
  | none => b

/-- `handleFeishuAutoReply` from the Feishu webhook route.  `group` is the
`lineGroup.findUnique` result; `ai` the outcome of the (caught)
`analyzeQuestion` call; `searchResult` the `searchKnowledge` result
(`none` = no match); `replySucceeds` whether `replyFeishuMessage` returns
an id.  Returns the observable effects. -/
def handleFeishuAutoReply (s : FeishuSettings) (timeoutMinutes now : Int)
    (group : Option GroupInfo) (ai : Except Unit QuestionAnalysis)
    (searchResult : Option KnowledgeSearchResult) (replySucceeds : Bool)
    (messageId groupId : Nat) (question : String) : AutoReplyOutcome :=
  -- if (group && !group.autoReplyEnabled) return
  if (match group with | some g => !g.autoReplyEnabled | none => false) then
    { searched := false, repliesSent := [], logs := [], issues := [] }
  else
    let customerId : Option Nat := match group with | some g => g.customerId | none => none
    let botNameMentioned := checkBotNameMentioned question s.botName
    let a := analyzeQuestionWithAI ai question
    let isQuestion := if !botNameMentioned then a.isQuestion else true
    let questionConfidence : Int := if !botNameMentioned then a.confidence else 100
    let questionSummary := if !botNameMentioned then a.summary else question
    let sentiment := if !botNameMentioned then a.sentiment else Sent3.neutral
    let shouldProcess :=
      if !botNameMentioned then isQuestion && decide (s.confidenceThreshold ≤ questionConfidence)
      else botNameMentioned
    let qualifies := isQuestion && decide (s.confidenceThreshold ≤ questionConfidence)
    if !s.autoReplyEnabled then
      if qualifies then
        { searched := false, repliesSent := [], logs := []
          issues := [createIssueForQuestion timeoutMinutes now messageId groupId
                       customerId questionSummary sentiment false none] }
      else
        { searched := false, repliesSent := [], logs := [], issues := [] }
    else if !shouldProcess then
      { searched := false, repliesSent := [], logs := [], issues := [] }
    else
      let knowledgeConfidence : Int := match searchResult with | some r => r.confidence | none => 0
      let hasGoodMatch := searchResult.isSome && decide (s.confidenceThreshold ≤ knowledgeConfidence)
      let shouldReply := botNameMentioned || hasGoodMatch
      let step4 : List String × List AutoReplyLogEntry × Bool × Option String :=
        if shouldReply then
          match searchResult with
          | some r =>
            -- covers both the hasGoodMatch branch and the botNameMentioned-with-result branch:
            -- the effects of the two branches are identical in the source
            let replyAnswer := strOrElse r.generatedAnswer r.entryAnswer
            ([replyAnswer],
             [{ messageId := messageId, answer := some replyAnswer,
                knowledgeId := some r.entryId, matched := true,
                confidence := knowledgeConfidence }],
             replySucceeds, some replyAnswer)
          | none =>
            -- only reachable with botNameMentioned = true
            ([s.notFoundReply],
             [{ messageId := messageId, answer := some s.notFoundReply,
                knowledgeId := none, matched := false, confidence := 0 }],
             replySucceeds, some s.notFoundReply)
        else
          ([],
           [{ messageId := messageId, answer := none,
              knowledgeId := (searchResult.map (fun r => r.entryId)), matched := false,
              confidence := knowledgeConfidence }],
           false, none)
      let didReply := step4.2.2.1
      let replyAnswer := step4.2.2.2
      let issues :=
        if qualifies then
          [createIssueForQuestion timeoutMinutes now messageId groupId customerId
             questionSummary sentiment didReply
             (match replyAnswer with
              | some ans => if ans == "" then none else some ans
              | none => none)]
        else []
      { searched := true, repliesSent := step4.1, logs := step4.2.1, issues := issues }

/-!  ## AI provider orchestrator (services/ai/index.ts)  -/

/-- The five provider kinds instantiable by `getAllProviders`. -/
inductive ProviderName where
  | gemini_oauth
  | claude_code_oauth
  | claude
  | gemini
  | ollama
deriving DecidableEq, Repr

/-- The settings keys consumed by `getAllProviders`. -/
structure AISettings where
  provider : Option String
  claudeApiKey : Option String
  geminiApiKey : Option String
deriving DecidableEq, Repr

/-- JS truthiness of a nullable string setting. -/
def truthy : Option String → Bool
  | none => false
  | some s => !(s == "")

/-- The `settings[..] || default` read of the configured provider
in `getAllProviders`. -/
def configuredProvider (s : AISettings) : String :=
  match s.provider with
  | some p => if p == "" then "claude-code-oauth" else p
  | none => "claude-code-oauth"

/-- The `providerOrder` list computed by `getAllProviders`. -/
def providerOrder (s : AISettings) : List String :=
  if configuredProvider s == "claude-code-oauth" then
    ["claude-code-oauth", "gemini-oauth", "claude", "gemini", "ollama"]
  else
    ["gemini-oauth", "claude-code-oauth", "claude", "gemini", "ollama"]

/-- One iteration of the `for (const name of providerOrder)` loop: the two
OAuth providers and ollama are always pushed, the API-key providers only when
their key setting is truthy. -/
def pushProvider (s : AISettings) (acc : List ProviderName) (name : String) :
    List ProviderName :=
  if name == "claude-code-oauth" then acc ++ [.claude_code_oauth]
  else if name == "gemini-oauth" then acc ++ [.gemini_oauth]
  else if name == "claude" then
    (if truthy s.claudeApiKey then acc ++ [.claude] else acc)
  else if name == "gemini" then
    (if truthy s.geminiApiKey then acc ++ [.gemini] else acc)
  else if name == "ollama" then acc ++ [.ollama]
  else acc

/-- `getAllProviders`: the ordered provider list actually attempted. -/
def getAllProviders (s : AISettings) : List ProviderName :=
  (providerOrder s).foldl (pushProvider s) []

/-- The `for`-loop of `generateAnswerWithFallback`: try each provider once in
order, return the first success, throw when the list is exhausted.
`outcome p` is the result of `p.generateAnswer(query, entries)`. -/
def tryProviders (outcome : ProviderName → Except Unit String) :
    List ProviderName → Except Unit String
  | [] => .error ()
  | p :: ps =>
    match outcome p with
    | .ok r => .ok r
    | .error _ => tryProviders outcome ps

/-- `generateAnswerWithFallback` from services/ai/index.ts. -/
def generateAnswerWithFallback (s : AISettings)
    (outcome : ProviderName → Except Unit String) : Except Unit String :=
  tryProviders outcome (getAllProviders s)

/-- Settings configuring ollama as the primary provider, no API keys. -/
def c9Settings : AISettings :=
  { provider := some "ollama", claudeApiKey := none, geminiApiKey := none }

/-- Call outcomes where both gemini-oauth and ollama would succeed, with
distinct answers, so the returned answer reveals the attempt order. -/
def c9Outcome : ProviderName → Except Unit String
  | .gemini_oauth => .ok "answer-from-gemini-oauth"
  | .ollama => .ok "answer-from-ollama"
  | _ => .error ()

/-!  ## Concrete inputs for the Feishu-path theorems  -/

/-- Settings with the default confidence threshold 50, no bot name. -/
def c1Settings : FeishuSettings :=
  { autoReplyEnabled := true, botName := none, confidenceThreshold := 50,
    notFoundReply := "no answer" }

/-- A group whose per-group auto-reply switch is off. -/
def c1Group : GroupInfo := { customerId := none, autoReplyEnabled := false }

/-- A classifier result that qualifies (question, confidence 90). -/
def c1Analysis : QuestionAnalysis :=
  { isQuestion := true, confidence := 90, summary := "reset password",
    sentiment := .neutral, suggestedTags := [], suggestedReply := none }

/-- A 150-character message, longer than the 100-character truncation limit. -/
def c10Content : String := String.mk (List.replicate 150 'a')

/-- A group with auto-reply enabled. -/
def c10Group : GroupInfo := { customerId := none, autoReplyEnabled := true }

/-!  ## Batch analysis (analysis.service `runAnalysis`)

Database tables are lists.  `DB.messages` is kept in ascending `createdAt`
order (messages are immutable and appended by channel ingestion in arrival
order), so the `orderBy createdAt asc` fetch is a filter and the
`orderBy createdAt desc` fetch is a filter followed by `reverse`.
A message row carries its joined `member.role` and `group.customerId`
columns, mirroring the `include` clauses of the queries. -/

/-- A Message row joined with its member's role and its group's customer. -/
structure Message where
  id : Nat
  groupId : Nat
  memberId : Nat
  role : MemberRole
  content : Option String
  createdAt : Int
  customerId : Option Nat
deriving DecidableEq, Repr

/-- An Issue row. -/
structure Issue where
  id : Nat
  questionSummary : String
  status : IssueStatus
  isQuestion : Bool
  sentiment : Sentiment
  suggestedReply : Option String
  timeoutAt : Int
  groupId : Nat
  customerId : Option Nat
  triggerMessageId : Nat
  replyMessageId : Option Nat
  repliedById : Option Nat
  repliedAt : Option Int
  replyRelevanceScore : Option Int
deriving DecidableEq, Repr

/-- An IssueTag row (unique name, usage counter). -/
structure IssueTag where
  id : Nat
  name : String
  usageCount : Int
deriving DecidableEq, Repr

/-- An IssueTagRelation row. -/
structure TagRelation where
  issueId : Nat
  tagId : Nat
deriving DecidableEq, Repr

/-- A Customer row (only the column this subsystem writes). -/
structure Customer where
  id : Nat
  sentiment : Sentiment
deriving DecidableEq, Repr

/-- The persisted store as seen by `runAnalysis`. -/
structure DB where
  messages : List Message
  issues : List Issue
  tags : List IssueTag
  relations : List TagRelation
  customers : List Customer
  nextIssueId : Nat
  nextTagId : Nat
deriving Repr

/-- Result shape of `AIProvider.evaluateReply`. -/
structure ReplyEvaluation where
  relevanceScore : Int
  isCounterQuestion : Bool
deriving DecidableEq, Repr

/-- Result shape of `AIProvider.findSimilarTag`. -/
structure TagSimilarity where
  similarTag : Option String
  shouldMerge : Bool
deriving DecidableEq, Repr

/-- Result shape of `AIProvider.analyzeCustomerSentiment`. -/
structure SentimentAnalysis where
  sentiment : Sent4
deriving DecidableEq, Repr

/-- The AI backend as a pure oracle; `.error` models a thrown call
(network failure, timeout, unparseable JSON). -/
structure AIOracle where
  analyzeQuestion : String → Except Unit QuestionAnalysis
  evaluateReply : String → String → Except Unit ReplyEvaluation
  findSimilarTag : String → List String → Except Unit TagSimilarity
  analyzeCustomerSentiment : List String → Except Unit SentimentAnalysis

/-- Environment of one `runAnalysis` run: the AI provider, the two settings,
and an interference schedule — `interference t = true` means a concurrent
run inserts an Issue for trigger message `t` between this run's
`issue.findUnique` check and its `issue.create`, so the create hits the
uniqueness constraint. -/
structure AnalysisEnv where
  ai : AIOracle
  replyThreshold : Int
  timeoutMinutes : Int
  interference : Nat → Bool

/-- The `groupId` / `since` filter of `runAnalysis`. -/
structure AnalysisParams where
  groupId : Option Nat
  since : Option Int
deriving DecidableEq, Repr

/-- The result counters returned by `runAnalysis`. -/
structure AnalysisResults where
  messagesAnalyzed : Nat
  issuesCreated : Nat
  issuesReplied : Nat
  tagsCreated : Nat
deriving DecidableEq, Repr

/-- The `whereClause` of the message fetch. -/
def matchesWindow (p : AnalysisParams) (m : Message) : Bool :=
  (match p.groupId with | some g => m.groupId == g | none => true) &&
  (match p.since with | some t => t ≤ m.createdAt | none => true)

/-- `prisma.message.findMany` with the window filter, ascending order. -/
def fetchMessages (p : AnalysisParams) (db : DB) : List Message :=
  db.messages.filter (matchesWindow p)

/-- `prisma.issue.findUnique where triggerMessageId` turned into existence. -/
def hasIssueFor (db : DB) (msgId : Nat) : Bool :=
  db.issues.any (fun i => i.triggerMessageId == msgId)

/-- `prisma.issueTag.findUnique where name`. -/
def findTagByName (db : DB) (name : String) : Option IssueTag :=
  db.tags.find? (fun t => t.name == name)

/-- `prisma.issueTag.update usageCount increment`. -/
def bumpUsage (db : DB) (tid : Nat) : DB :=
  { db with tags := db.tags.map (fun t =>
      if t.id == tid then { t with usageCount := t.usageCount + 1 } else t) }

/-- The create-if-novel part of one tag-loop iteration: when no merge was
recommended and the name is not in the run's cache, create the tag row and
extend the cache and the counter. -/
def tagCreateStep (db : DB) (tagNames : List String) (res : AnalysisResults)
    (merge : Bool) (tagName : String) : DB × List String × AnalysisResults :=
  if merge then (db, tagNames, res)
  else if tagNames.contains tagName then (db, tagNames, res)
  else ({ db with
            tags := db.tags ++ [{ id := db.nextTagId, name := tagName, usageCount := 0 }]
            nextTagId := db.nextTagId + 1 },
        tagNames ++ [tagName],
        { res with tagsCreated := res.tagsCreated + 1 })

/-- One iteration of the tag loop of `runAnalysis`: consult `findSimilarTag`
for the suggested name against the run's tag-name cache (the provider
short-circuits to no-merge when the vocabulary is empty), create a missing
tag, and attach the chosen tag to the Issue unless its identity was already
attached (`addedTagIds`).  An AI throw aborts the run (`.error` carries the
store at failure). -/
def processOneTag (env : AnalysisEnv) (issueId : Nat) (db : DB)
    (tagNames : List String) (added : List Nat) (res : AnalysisResults)
    (tagName : String) :
    Except DB (DB × List String × List Nat × AnalysisResults) :=
  let simCall : Except Unit TagSimilarity :=
    if tagNames.isEmpty then .ok { similarTag := none, shouldMerge := false }
    else env.ai.findSimilarTag tagName tagNames
  match simCall with
  | .error _ => .error db
  | .ok similarity =>
    let merge := similarity.shouldMerge && similarity.similarTag.isSome
    let tagToUse := if merge then similarity.similarTag.getD tagName else tagName
    let next := tagCreateStep db tagNames res merge tagName
    match findTagByName next.1 tagToUse with
    | none => .ok (next.1, next.2.1, added, next.2.2)
    | some tag =>
      if added.contains tag.id then .ok (next.1, next.2.1, added, next.2.2)
      else
        .ok (bumpUsage { next.1 with
                relations := next.1.relations ++ [{ issueId := issueId, tagId := tag.id }] } tag.id,
             next.2.1, added ++ [tag.id], next.2.2)

/-- The tag loop of `runAnalysis` for one Issue, iterating `processOneTag`
over the AI-suggested names. -/
def processTags (env : AnalysisEnv) (issueId : Nat) :
    DB → List String → List Nat → AnalysisResults → List String →
    Except DB (DB × List String × AnalysisResults)
  | db, tagNames, _, res, [] => .ok (db, tagNames, res)
  | db, tagNames, added, res, tagName :: rest =>
    match processOneTag env issueId db tagNames added res tagName with
    | .error dbe => .error dbe
    | .ok (db1, tn1, added1, res1) => processTags env issueId db1 tn1 added1 res1 rest

/-- The `subsequentMessages` query: up to 5 later staff messages of the same
group, chronological order. -/
def subsequentStaffMessages (db : DB) (groupId : Nat) (t : Int) : List Message :=
  (db.messages.filter
    (fun m => m.groupId == groupId && decide (t < m.createdAt) && m.role == .STAFF)).take 5

/-- The `issue.update` issued by the staff-reply scan. -/
def updateIssueReply (db : DB) (issueId : Nat) (st : IssueStatus) (r : Message)
    (score : Int) : DB :=
  { db with issues := db.issues.map (fun i =>
      if i.id == issueId then
        { i with status := st, replyMessageId := some r.id, repliedById := some r.memberId,
                 repliedAt := some r.createdAt, replyRelevanceScore := some score }
      else i) }

/-- The staff-reply scan of `runAnalysis`: evaluate candidates in order; the
first with `relevanceScore >= replyThreshold` yields `REPLIED`, else a
counter-question yields `WAITING_CUSTOMER`; both record the reply fields and
stop; otherwise continue.  An evaluator throw aborts the run. -/
def processReplies (env : AnalysisEnv) (origContent : String) (issueId : Nat) :
    DB → AnalysisResults → List Message → Except DB (DB × AnalysisResults)
  | db, res, [] => .ok (db, res)
  | db, res, r :: rest =>
    match r.content with
    | none => processReplies env origContent issueId db res rest
    | some rc =>
      match env.ai.evaluateReply origContent rc with
      | .error _ => .error db
      | .ok ev =>
        if env.replyThreshold ≤ ev.relevanceScore then
          .ok (updateIssueReply db issueId .REPLIED r ev.relevanceScore,
               { res with issuesReplied := res.issuesReplied + 1 })
        else if ev.isCounterQuestion then
          .ok (updateIssueReply db issueId .WAITING_CUSTOMER r ev.relevanceScore, res)
        else
          processReplies env origContent issueId db res rest

/-- The new PENDING issue row created for a classified question. -/
def newIssueFor (env : AnalysisEnv) (db : DB) (m : Message)
    (analysis : QuestionAnalysis) : Issue :=
  { id := db.nextIssueId
    questionSummary := analysis.summary
    status := .PENDING
    isQuestion := true
    sentiment := mapSentiment analysis.sentiment
    suggestedReply := analysis.suggestedReply
    timeoutAt := m.createdAt + env.timeoutMinutes * 60 * 1000
    groupId := m.groupId
    customerId := m.customerId
    triggerMessageId := m.id
    replyMessageId := none
    repliedById := none
    repliedAt := none
    replyRelevanceScore := none }

/-- The `prisma.issue.create` write of `runAnalysis`: append the new
PENDING issue row. -/
def issueCreateStep (env : AnalysisEnv) (db : DB) (m : Message)
    (analysis : QuestionAnalysis) : DB :=
  { db with issues := db.issues ++ [newIssueFor env db m analysis],
            nextIssueId := db.nextIssueId + 1 }

/-- The create-and-track part of one message-loop iteration: the create hits
the uniqueness constraint when a concurrent run interfered (the error is not
caught and aborts the run), then the tag loop and the staff-reply scan run
on the new issue. -/
def createAndTrack (env : AnalysisEnv) (db : DB) (tagNames : List String)
    (res : AnalysisResults) (m : Message) (content : String)
    (analysis : QuestionAnalysis) :
    Except DB (DB × List String × AnalysisResults) :=
  if hasIssueFor db m.id || env.interference m.id then .error db
  else
    match processTags env db.nextIssueId (issueCreateStep env db m analysis) tagNames []
        { res with issuesCreated := res.issuesCreated + 1 } analysis.suggestedTags with
    | .error dbe => .error dbe
    | .ok (db2, tagNames2, res2) =>
      match processReplies env content db.nextIssueId db2 res2
          (subsequentStaffMessages db2 m.groupId m.createdAt) with
      | .error dbe => .error dbe
      | .ok (db3, res3) => .ok (db3, tagNames2, res3)

/-- One iteration of the main message loop of `runAnalysis`: skip staff and
non-text messages, skip messages that already have an Issue, classify, and
for questions run the create-and-track step. -/
def processOne (env : AnalysisEnv) (db : DB) (tagNames : List String)
    (res : AnalysisResults) (m : Message) :
    Except DB (DB × List String × AnalysisResults) :=
  if m.role == .STAFF then .ok (db, tagNames, res)
  else
    match m.content with
    | none => .ok (db, tagNames, res)
    | some content =>
      let res := { res with messagesAnalyzed := res.messagesAnalyzed + 1 }
      if hasIssueFor db m.id then .ok (db, tagNames, res)
      else
        match env.ai.analyzeQuestion content with
        | .error _ => .error db
        | .ok analysis =>
          if !analysis.isQuestion then .ok (db, tagNames, res)
          else createAndTrack env db tagNames res m content analysis

/-- The main `for (const message of messages)` loop. -/
def processMessages (env : AnalysisEnv) :
    DB → List String → AnalysisResults → List Message →
    Except DB (DB × List String × AnalysisResults)
  | db, tagNames, res, [] => .ok (db, tagNames, res)
  | db, tagNames, res, m :: ms =>
    match processOne env db tagNames res m with
    | .error dbe => .error dbe
    | .ok (db1, tn1, res1) => processMessages env db1 tn1 res1 ms

/-- The `recentCustomerMessages` query: the customer's most recent 20
non-empty non-staff messages, newest first. -/
def qualifyingRecent (db : DB) (cid : Nat) : List Message :=
  ((db.messages.filter (fun m =>
      m.customerId == some cid && !(m.role == .STAFF) && m.content.isSome)).reverse).take 20

/-- One iteration of the customer-sentiment loop: customers with no
qualifying messages are not written; otherwise the stored sentiment is
replaced with the freshly computed value. -/
def updateCustomerSentiment (env : AnalysisEnv) (db : DB) (cid : Nat) :
    Except DB DB :=
  let recent := qualifyingRecent db cid
  if recent.length > 0 then
    match env.ai.analyzeCustomerSentiment
        ((recent.map (fun m => m.content.getD "")).reverse) with
    | .error _ => .error db
    | .ok r =>
      .ok { db with customers := db.customers.map (fun c =>
              if c.id == cid then { c with sentiment := mapSentimentExtended r.sentiment }
              else c) }
  else .ok db

/-- The customer-sentiment loop over the deduplicated customer ids. -/
def sentimentLoop (env : AnalysisEnv) : DB → List Nat → Except DB DB
  | db, [] => .ok db
  | db, cid :: rest =>
    match updateCustomerSentiment env db cid with
    | .error dbe => .error dbe
    | .ok db1 => sentimentLoop env db1 rest

/-- `[...new Set(xs)]`: deduplication keeping first occurrences. -/
def dedupFirst (l : List Nat) : List Nat :=
  l.foldl (fun acc x => if acc.contains x then acc else acc ++ [x]) []

/-- `runAnalysis` from analysis.service: fetch the window, seed the tag-name
cache, run the message loop, then the customer-sentiment rollup.  `.error`
is an uncaught throw escaping `runAnalysis` (it carries the store at the
moment of failure). -/
def runAnalysis (env : AnalysisEnv) (p : AnalysisParams) (db : DB) :
    Except DB (DB × AnalysisResults) :=
  let msgs := fetchMessages p db
  let tagNames := db.tags.map (fun t => t.name)
  match processMessages env db tagNames
      { messagesAnalyzed := 0, issuesCreated := 0, issuesReplied := 0, tagsCreated := 0 }
      msgs with
  | .error dbe => .error dbe
  | .ok (db1, _, res) =>
    match sentimentLoop env db1 (dedupFirst (msgs.filterMap (fun m => m.customerId))) with
    | .error dbe => .error dbe
    | .ok db2 => .ok (db2, res)

/-- The issue read route (`GET /issues/:id`): a pure lookup, no write. -/
def getIssueDetail (db : DB) (id : Nat) : Option Issue :=
  db.issues.find? (fun i => i.id == id)

/-!  ## Concrete inputs for the batch-analysis theorems  -/

/-- A deterministic well-behaved oracle: everything is a confident question,
replies score 80, tags never merge, sentiment neutral. -/
def simpleOracle : AIOracle :=
  { analyzeQuestion := fun c =>
      .ok { isQuestion := true, confidence := 90, summary := c, sentiment := .neutral,
            suggestedTags := [], suggestedReply := none }
    evaluateReply := fun _ _ => .ok { relevanceScore := 80, isCounterQuestion := false }
    findSimilarTag := fun _ _ => .ok { similarTag := none, shouldMerge := false }
    analyzeCustomerSentiment := fun _ => .ok { sentiment := .neutral } }

/-- Environment where a concurrent run grabs trigger message 1. -/
def c2Env : AnalysisEnv :=
  { ai := simpleOracle, replyThreshold := 60, timeoutMinutes := 15,
    interference := fun t => t == 1 }

/-- First external question message of the two-message batch. -/
def batchMsg1 : Message :=
  { id := 1, groupId := 1, memberId := 10, role := .EXTERNAL,
    content := some "how do I log in", createdAt := 100, customerId := none }

/-- Second external question message of the two-message batch. -/
def batchMsg2 : Message :=
  { id := 2, groupId := 1, memberId := 10, role := .EXTERNAL,
    content := some "where is the invoice", createdAt := 200, customerId := none }

/-- A store holding the two-message batch and nothing else. -/
def batchDb : DB :=
  { messages := [batchMsg1, batchMsg2], issues := [], tags := [], relations := [],
    customers := [], nextIssueId := 1, nextTagId := 1 }

/-- An oracle whose classifier throws on the first message's content. -/
def c4Oracle : AIOracle :=
  { simpleOracle with
      analyzeQuestion := fun c =>
        if c == "how do I log in" then .error ()
        else .ok ({ isQuestion := true, confidence := 90, summary := c,
                    sentiment := .neutral, suggestedTags := [], suggestedReply := none }) }

/-- Environment with the throwing classifier and no concurrent interference. -/
def c4Env : AnalysisEnv :=
  { ai := c4Oracle, replyThreshold := 60, timeoutMinutes := 15,
    interference := fun _ => false }

/-- Environment with the well-behaved oracle and no interference. -/
def quietEnv : AnalysisEnv :=
  { ai := simpleOracle, replyThreshold := 60, timeoutMinutes := 15,
    interference := fun _ => false }

/-- An Issue whose deadline (timeoutAt = 100) is already in the past at
now = 200 while its status is still PENDING. -/
def c3Issue : Issue :=
  { id := 1, questionSummary := "how do I log in", status := .PENDING, isQuestion := true,
    sentiment := .NEUTRAL, suggestedReply := none, timeoutAt := 100, groupId := 1,
    customerId := none, triggerMessageId := 1, replyMessageId := none, repliedById := none,
    repliedAt := none, replyRelevanceScore := none }

/-- Store holding the expired-deadline PENDING issue and its trigger. -/
def c3Db : DB :=
  { messages := [batchMsg1], issues := [c3Issue], tags := [], relations := [],
    customers := [], nextIssueId := 2, nextTagId := 1 }

/-- An evaluator scoring reply "good answer" exactly at the threshold 60 and
reply "vague answer" one point below, neither a counter-question. -/
def c5Oracle : AIOracle :=
  { simpleOracle with
      evaluateReply := fun _ reply =>
        if reply == "good answer" then .ok ({ relevanceScore := 60, isCounterQuestion := false })
        else .ok ({ relevanceScore := 59, isCounterQuestion := false }) }

/-- Environment with the boundary-scoring evaluator, threshold 60. -/
def c5Env : AnalysisEnv :=
  { ai := c5Oracle, replyThreshold := 60, timeoutMinutes := 15,
    interference := fun _ => false }

/-- A staff reply message scored exactly at the threshold by `c5Oracle`. -/
def c5ReplyAt : Message :=
  { id := 3, groupId := 1, memberId := 20, role := .STAFF,
    content := some "good answer", createdAt := 150, customerId := none }

/-- A staff reply message scored one point below the threshold. -/
def c5ReplyBelow : Message :=
  { id := 4, groupId := 1, memberId := 20, role := .STAFF,
    content := some "vague answer", createdAt := 160, customerId := none }

/-- Number of Issue-Tag relation rows for a given (issue, tag) pair. -/
def countRel (db : DB) (issueId tid : Nat) : Nat :=
  (db.relations.filter (fun rel => rel.issueId == issueId && rel.tagId == tid)).length

/-- The stored sentiment of the customer with the given id, if present. -/
def sentimentOf (db : DB) (cid : Nat) : Option Sentiment :=
  (db.customers.find? (fun c => c.id == cid)).map (fun c => c.sentiment)

/-- A message is handled for a store when re-processing it cannot create an
Issue: it is a staff message, has no text, already has an Issue on its
trigger, or the (deterministic) classifier marks it a non-question. -/
def handled (env : AnalysisEnv) (db : DB) (m : Message) : Prop :=
  m.role = MemberRole.STAFF ∨ m.content = none ∨ hasIssueFor db m.id = true ∨
  (∃ c a, m.content = some c ∧ env.ai.analyzeQuestion c = .ok a ∧ a.isQuestion = false)

/-- Zeroed result counters. -/
def res0 : AnalysisResults :=
  { messagesAnalyzed := 0, issuesCreated := 0, issuesReplied := 0, tagsCreated := 0 }

/-- A tag oracle that merges the synonymous name "install" into the existing
tag name "setup" and treats every other name as novel. -/
def c7Oracle : AIOracle :=
  { simpleOracle with
      findSimilarTag := fun t _ =>
        if t == "install" then .ok ({ similarTag := some "setup", shouldMerge := true })
        else .ok ({ similarTag := none, shouldMerge := false }) }

/-- Environment with the merging tag oracle. -/
def c7Env : AnalysisEnv :=
  { ai := c7Oracle, replyThreshold := 60, timeoutMinutes := 15,
    interference := fun _ => false }

/-- A store whose tag vocabulary already holds "setup" (id 1). -/
def c7Db : DB :=
  { messages := [], issues := [], tags := [{ id := 1, name := "setup", usageCount := 0 }],
    relations := [], customers := [], nextIssueId := 6, nextTagId := 2 }

/-- A sentiment oracle that reports at-risk for every customer. -/
def c8Oracle : AIOracle :=
  { simpleOracle with
      analyzeCustomerSentiment := fun _ => .ok ({ sentiment := .at_risk }) }

/-- Environment with the at-risk sentiment oracle. -/
def c8Env : AnalysisEnv :=
  { ai := c8Oracle, replyThreshold := 60, timeoutMinutes := 15,
    interference := fun _ => false }

/-- An external text message belonging to customer 7. -/
def c8Msg : Message :=
  { id := 1, groupId := 3, memberId := 10, role := .EXTERNAL,
    content := some "this is unacceptable", createdAt := 10, customerId := some 7 }

/-- A store where customer 7 is currently POSITIVE and has one qualifying
recent message. -/
def c8Db : DB :=
  { messages := [c8Msg], issues := [], tags := [], relations := [],
    customers := [{ id := 7, sentiment := .POSITIVE }], nextIssueId := 1, nextTagId := 1 }

/-- A store with no messages and one customer (id 9, NEUTRAL). -/
def c8QuietDb : DB :=
  { messages := [], issues := [], tags := [], relations := [],
    customers := [{ id := 9, sentiment := .NEUTRAL }], nextIssueId := 1, nextTagId := 1 }

/-- The issue created for the first batch message by `quietEnv`. -/
def c6Issue1 : Issue :=
  { id := 1, questionSummary := "how do I log in", status := .PENDING, isQuestion := true,
    sentiment := .NEUTRAL, suggestedReply := none, timeoutAt := 900100, groupId := 1,
    customerId := none, triggerMessageId := 1, replyMessageId := none, repliedById := none,
    repliedAt := none, replyRelevanceScore := none }

/-- The issue created for the second batch message by `quietEnv`. -/
def c6Issue2 : Issue :=
  { id := 2, questionSummary := "where is the invoice", status := .PENDING, isQuestion := true,
    sentiment := .NEUTRAL, suggestedReply := none, timeoutAt := 900200, groupId := 1,
    customerId := none, triggerMessageId := 2, replyMessageId := none, repliedById := none,
    repliedAt := none, replyRelevanceScore := none }

/-- The store after the first `runAnalysis` over `batchDb`. -/
def c6Db1 : DB :=
  { batchDb with issues := [c6Issue1, c6Issue2], nextIssueId := 3 }

/-!  ## Helper lemmas: orchestrator  -/

/-- The provider list always has the shape: the two OAuth providers in the
configuration-dependent order, then the key-gated API providers, then ollama. -/
theorem getAllProviders_eq (s : AISettings) :
    getAllProviders s =
      (if configuredProvider s == "claude-code-oauth" then
        [ProviderName.claude_code_oauth, ProviderName.gemini_oauth]
       else [ProviderName.gemini_oauth, ProviderName.claude_code_oauth]) ++
      (if truthy s.claudeApiKey then [ProviderName.claude] else []) ++
      (if truthy s.geminiApiKey then [ProviderName.gemini] else []) ++
      [ProviderName.ollama] := by
  unfold getAllProviders providerOrder
  cases h : (configuredProvider s == "claude-code-oauth") <;>
    cases h1 : truthy s.claudeApiKey <;>
      cases h2 : truthy s.geminiApiKey <;>
        simp [List.foldl, pushProvider, h1, h2]

/-- Exhausting an all-failing provider list yields the explicit error. -/
theorem tryProviders_error (outcome : ProviderName → Except Unit String) :
    ∀ l : List ProviderName, (∀ p ∈ l, outcome p = .error ()) →
      tryProviders outcome l = .error () := by
  intro l
  induction l with
  | nil => intro _; rfl
  | cons p ps ih =>
    intro h
    have hp := h p (by simp)
    simp [tryProviders, hp]
    exact ih (fun q hq => h q (by simp [hq]))

/-- The first succeeding provider after a failing prefix determines the result. -/
theorem tryProviders_first_success (outcome : ProviderName → Except Unit String)
    (p : ProviderName) (l2 : List ProviderName) (r : String) :
    ∀ l1 : List ProviderName, (∀ q ∈ l1, outcome q = .error ()) →
      outcome p = .ok r → tryProviders outcome (l1 ++ p :: l2) = .ok r := by
  intro l1
  induction l1 with
  | nil => intro _ hp; simp [tryProviders, hp]
  | cons q qs ih =>
    intro h hp
    have hq := h q (by simp)
    simp [tryProviders, hq]
    exact ih (fun x hx => h x (by simp [hx])) hp

/-!  ## Theorems: C1  -/

/-- C1, counterexample.  For a qualifying message (isQuestion, confidence 90 ≥
threshold 50) in a group with auto-reply disabled, `handleFeishuAutoReply`
returns immediately: no reply is sent, but contrary to the claim no Issue is
created and no Auto-Reply Log entry is written. -/
theorem c1_counterexample :
    (analyzeQuestionWithAI (.ok c1Analysis) "How do I reset?").isQuestion = true ∧
    c1Settings.confidenceThreshold ≤
      (analyzeQuestionWithAI (.ok c1Analysis) "How do I reset?").confidence ∧
    handleFeishuAutoReply c1Settings 15 0 (some c1Group) (.ok c1Analysis) none true 1 2
        "How do I reset?" =
      { searched := false, repliesSent := [], logs := [], issues := [] } :=
  ⟨rfl, by decide, rfl⟩

/-- C1, amended.  If the owning conversation has auto-reply disabled, the gate
sends no reply, and it also creates no Issue and records nothing in the
Auto-Reply Log: the handler returns before classification and retrieval. -/
theorem c1_amended (s : FeishuSettings) (tm now : Int) (g : GroupInfo)
    (ai : Except Unit QuestionAnalysis) (res : Option KnowledgeSearchResult)
    (rs : Bool) (mid gid : Nat) (q : String)
    (h : g.autoReplyEnabled = false) :
    handleFeishuAutoReply s tm now (some g) ai res rs mid gid q =
      { searched := false, repliesSent := [], logs := [], issues := [] } := by
  unfold handleFeishuAutoReply
  simp [h]

/-- Witness for `c1_amended` at a concrete input. -/
theorem c1_amended_witness :
    handleFeishuAutoReply c1Settings 15 0 (some c1Group) (.ok c1Analysis) none true 1 2
        "How do I reset?" =
      { searched := false, repliesSent := [], logs := [], issues := [] } :=
  c1_amended c1Settings 15 0 c1Group (.ok c1Analysis) none true 1 2 "How do I reset?" rfl

/-!  ## Theorems: C10  -/

set_option maxRecDepth 4096 in
/-- C10, counterexample.  When the classifier throws on a 150-character
message, the fallback summary is the first 100 characters followed by "...",
not the first 100 characters themselves. -/
theorem c10_counterexample :
    (analyzeQuestionWithAI (.error ()) c10Content).summary ≠ c10Content.take 100 := by
  decide

/-- C10, amended.  When the AI classification call throws in the streaming
auto-reply path, the message is treated as a question with confidence 50 and
a summary equal to the content itself when it is at most 100 characters, and
to the first 100 characters followed by an ellipsis otherwise; with the
default threshold 50 (and auto-reply enabled for the conversation, no
bot-name mention) the message proceeds to knowledge retrieval and an Issue is
created. -/
theorem c10_amended (s : FeishuSettings) (tm now : Int) (g : GroupInfo)
    (res : Option KnowledgeSearchResult) (rs : Bool) (mid gid : Nat) (q : String)
    (hglob : s.autoReplyEnabled = true) (hthr : s.confidenceThreshold = 50)
    (hmention : checkBotNameMentioned q s.botName = false)
    (hg : g.autoReplyEnabled = true) :
    (analyzeQuestionWithAI (.error ()) q).isQuestion = true ∧
    (analyzeQuestionWithAI (.error ()) q).confidence = 50 ∧
    (analyzeQuestionWithAI (.error ()) q).summary =
      (if q.length > 100 then q.take 100 ++ "..." else q) ∧
    (handleFeishuAutoReply s tm now (some g) (.error ()) res rs mid gid q).searched = true ∧
    (handleFeishuAutoReply s tm now (some g) (.error ()) res rs mid gid q).issues ≠ [] := by
  refine ⟨rfl, rfl, rfl, ?_, ?_⟩ <;>
    simp [handleFeishuAutoReply, hglob, hthr, hmention, hg, analyzeQuestionWithAI]

/-- Witness for `c10_amended` at a concrete input. -/
theorem c10_amended_witness :
    (analyzeQuestionWithAI (.error ()) c10Content).isQuestion = true ∧
    (analyzeQuestionWithAI (.error ()) c10Content).confidence = 50 ∧
    (analyzeQuestionWithAI (.error ()) c10Content).summary =
      (if c10Content.length > 100 then c10Content.take 100 ++ "..." else c10Content) ∧
    (handleFeishuAutoReply c1Settings 15 0 (some c10Group) (.error ()) none true 1 2
        c10Content).searched = true ∧
    (handleFeishuAutoReply c1Settings 15 0 (some c10Group) (.error ()) none true 1 2
        c10Content).issues ≠ [] :=
  c10_amended c1Settings 15 0 c10Group none true 1 2 c10Content rfl rfl (by decide) rfl

/-!  ## Theorems: C9  -/

/-- C9, counterexample.  With `ai.provider` configured to "ollama", the
fallback order starts with gemini-oauth, not with the configured primary:
when both would succeed, the answer comes from gemini-oauth. -/
theorem c9_counterexample :
    c9Settings.provider = some "ollama" ∧
    (getAllProviders c9Settings).head? = some ProviderName.gemini_oauth ∧
    generateAnswerWithFallback c9Settings c9Outcome = .ok "answer-from-gemini-oauth" :=
  ⟨rfl, by decide, rfl⟩

/-- C9, amended.  For a synthesis request the orchestrator attempts each
available backend at most once, in a fixed order that puts the configured
provider first only when it is claude-code-oauth (otherwise gemini-oauth is
attempted first, then claude-code-oauth, then the key-gated API providers,
then ollama), stopping at the first success; if every backend fails the
caller receives an explicit all-backends-exhausted failure rather than a
silently empty answer. -/
theorem c9_amended :
    (∀ s : AISettings, (getAllProviders s).Nodup) ∧
    (∀ (s : AISettings) (outcome : ProviderName → Except Unit String),
      (∀ p ∈ getAllProviders s, outcome p = .error ()) →
      generateAnswerWithFallback s outcome = .error ()) ∧
    (∀ (s : AISettings) (outcome : ProviderName → Except Unit String)
        (l1 : List ProviderName) (p : ProviderName) (l2 : List ProviderName) (r : String),
      getAllProviders s = l1 ++ p :: l2 →
      (∀ q ∈ l1, outcome q = .error ()) →
      outcome p = .ok r →
      generateAnswerWithFallback s outcome = .ok r) ∧
    (∀ s : AISettings,
      (getAllProviders s).head? =
        some (if configuredProvider s == "claude-code-oauth" then
                ProviderName.claude_code_oauth
              else ProviderName.gemini_oauth)) := by
  refine ⟨?_, ?_, ?_, ?_⟩
  · intro s
    rw [getAllProviders_eq]
    cases h : (configuredProvider s == "claude-code-oauth") <;>
      cases h1 : truthy s.claudeApiKey <;>
        cases h2 : truthy s.geminiApiKey <;>
          simp [h1, h2]
  · intro s outcome h
    exact tryProviders_error outcome _ h
  · intro s outcome l1 p l2 r hl h hp
    unfold generateAnswerWithFallback
    rw [hl]
    exact tryProviders_first_success outcome p l2 r l1 h hp
  · intro s
    rw [getAllProviders_eq]
    cases h : (configuredProvider s == "claude-code-oauth") <;> simp

/-- Witness for `c9_amended` at concrete inputs. -/
theorem c9_amended_witness :
    (getAllProviders c9Settings).Nodup ∧
    generateAnswerWithFallback c9Settings (fun _ => .error ()) = .error () ∧
    generateAnswerWithFallback c9Settings c9Outcome = .ok "answer-from-gemini-oauth" ∧
    (getAllProviders c9Settings).head? =
      some (if configuredProvider c9Settings == "claude-code-oauth" then
              ProviderName.claude_code_oauth
            else ProviderName.gemini_oauth) :=
  ⟨c9_amended.1 c9Settings,
   c9_amended.2.1 c9Settings (fun _ => .error ()) (fun _ _ => rfl),
   c9_amended.2.2.1 c9Settings c9Outcome []
     ProviderName.gemini_oauth [ProviderName.claude_code_oauth, ProviderName.ollama]
     "answer-from-gemini-oauth" (by decide) (by simp) rfl,
   c9_amended.2.2.2 c9Settings⟩

/-!  ## Theorems: C2  -/

/-- C2, counterexample.  When a concurrent run has already created the Issue
for trigger message 1, this run's `issue.create` hits the uniqueness
constraint and the error is not recovered: `runAnalysis` aborts with the
error and message 2 of the batch is never analysed (no Issue for it). -/
theorem c2_counterexample :
    runAnalysis c2Env { groupId := none, since := none } batchDb = .error batchDb ∧
    hasIssueFor batchDb 2 = false := by
  constructor
  · rfl
  · rfl

/-- C2, amended.  At most one Issue exists per trigger message — the
check-then-create never creates a duplicate (the store is returned unchanged
on conflict) — but a duplicate-creation error from the uniqueness constraint
is not treated as "already exists": it propagates and aborts the analysis
run at that point. -/
theorem c2_amended (env : AnalysisEnv) (db : DB) (tagNames : List String)
    (res : AnalysisResults) (m : Message) (c : String) (a : QuestionAnalysis)
    (hrole : m.role ≠ MemberRole.STAFF) (hc : m.content = some c)
    (hno : hasIssueFor db m.id = false)
    (ha : env.ai.analyzeQuestion c = .ok a) (hq : a.isQuestion = true)
    (hint : env.interference m.id = true) :
    processOne env db tagNames res m = .error db := by
  unfold processOne createAndTrack
  simp [hrole, hc, hno, ha, hq, hint]

/-- Witness for `c2_amended` at a concrete input. -/
theorem c2_amended_witness :
    processOne c2Env batchDb []
      { messagesAnalyzed := 0, issuesCreated := 0, issuesReplied := 0, tagsCreated := 0 }
      batchMsg1 = .error batchDb :=
  c2_amended c2Env batchDb [] _ batchMsg1 "how do I log in"
    { isQuestion := true, confidence := 90, summary := "how do I log in",
      sentiment := .neutral, suggestedTags := [], suggestedReply := none }
    (by decide) rfl rfl (by rfl) rfl rfl

/-!  ## Theorems: C3  -/

/-- C3, evaluation at the failing input.  An Issue in PENDING whose
`timeoutAt` deadline (100) is strictly in the past at now = 200 is returned
unchanged by the issue read route, and a full `runAnalysis` pass over its
conversation also leaves it in PENDING: nothing in the subsystem transitions
it to TIMEOUT. -/
theorem c3_code_bug :
    getIssueDetail c3Db 1 = some c3Issue ∧
    c3Issue.status = IssueStatus.PENDING ∧
    c3Issue.timeoutAt < 200 ∧
    runAnalysis quietEnv { groupId := none, since := none } c3Db =
      .ok (c3Db, { messagesAnalyzed := 1, issuesCreated := 0, issuesReplied := 0,
                   tagsCreated := 0 }) := by
  refine ⟨rfl, rfl, by decide, rfl⟩

/-!  ## Theorems: C4  -/

/-- C4, counterexample.  When the classifier throws on the first message of a
two-message batch, `runAnalysis` aborts with the error instead of continuing:
the second message is never analysed (no Issue for it). -/
theorem c4_counterexample :
    runAnalysis c4Env { groupId := none, since := none } batchDb = .error batchDb ∧
    hasIssueFor batchDb 2 = false := by
  constructor
  · rfl
  · rfl

/-- C4, amended.  When the AI backend call fails for one message during batch
analysis, the error propagates out of the message loop: the whole
`runAnalysis` batch aborts at that message and the remaining messages are
not processed (only the streaming path catches per-message failures). -/
theorem c4_amended (env : AnalysisEnv) (db : DB) (tagNames : List String)
    (res : AnalysisResults) (m : Message) (rest : List Message) (c : String)
    (hrole : m.role ≠ MemberRole.STAFF) (hc : m.content = some c)
    (hno : hasIssueFor db m.id = false)
    (ha : env.ai.analyzeQuestion c = .error ()) :
    processMessages env db tagNames res (m :: rest) = .error db := by
  have hone : processOne env db tagNames res m = .error db := by
    unfold processOne
    simp [hrole, hc, hno, ha]
  unfold processMessages
  rw [hone]

/-- Witness for `c4_amended` at a concrete input. -/
theorem c4_amended_witness :
    processMessages c4Env batchDb []
      { messagesAnalyzed := 0, issuesCreated := 0, issuesReplied := 0, tagsCreated := 0 }
      [batchMsg1, batchMsg2] = .error batchDb :=
  c4_amended c4Env batchDb [] _ batchMsg1 [batchMsg2] "how do I log in"
    (by decide) rfl rfl (by rfl)

/-!  ## Theorems: C5  -/

/-- C5.  In the staff-reply scan, a first candidate whose relevance score is
exactly the configured threshold transitions the Issue to REPLIED and records
the reply message, party, time and score (inclusive boundary), while a
candidate scored one point below the threshold (and not a counter-question)
is passed over without causing the REPLIED transition. -/
theorem c5_threshold_boundary (env : AnalysisEnv) (q : String) (issueId : Nat)
    (db db' : DB) (res res' : AnalysisResults)
    (r r' : Message) (rest rest' : List Message) (rc rc' : String)
    (ev ev' : ReplyEvaluation)
    (hc : r.content = some rc) (hev : env.ai.evaluateReply q rc = .ok ev)
    (hscore : ev.relevanceScore = env.replyThreshold)
    (hc' : r'.content = some rc') (hev' : env.ai.evaluateReply q rc' = .ok ev')
    (hscore' : ev'.relevanceScore = env.replyThreshold - 1)
    (hcq' : ev'.isCounterQuestion = false) :
    (processReplies env q issueId db res (r :: rest) =
      .ok (updateIssueReply db issueId .REPLIED r ev.relevanceScore,
           { res with issuesReplied := res.issuesReplied + 1 })) ∧
    (∀ i ∈ db.issues, i.id = issueId →
      { i with status := IssueStatus.REPLIED, replyMessageId := some r.id,
               repliedById := some r.memberId, repliedAt := some r.createdAt,
               replyRelevanceScore := some ev.relevanceScore } ∈
        (updateIssueReply db issueId .REPLIED r ev.relevanceScore).issues) ∧
    (processReplies env q issueId db' res' (r' :: rest') =
      processReplies env q issueId db' res' rest') := by
  refine ⟨?_, ?_, ?_⟩
  · unfold processReplies
    simp [hc, hev, hscore]
  · intro i hi hid
    unfold updateIssueReply
    simp only [List.mem_map]
    refine ⟨i, hi, ?_⟩
    simp [hid]
  · have hlt : ¬ env.replyThreshold ≤ ev'.relevanceScore := by
      rw [hscore']
      omega
    conv_lhs => unfold processReplies
    simp [hc', hev', hlt, hcq']

/-- Witness for `c5_threshold_boundary` at concrete inputs. -/
theorem c5_threshold_boundary_witness :
    (processReplies c5Env "how do I log in" 1 c3Db
        { messagesAnalyzed := 0, issuesCreated := 0, issuesReplied := 0, tagsCreated := 0 }
        [c5ReplyAt] =
      .ok (updateIssueReply c3Db 1 .REPLIED c5ReplyAt 60,
           { messagesAnalyzed := 0, issuesCreated := 0, issuesReplied := 1,
             tagsCreated := 0 })) ∧
    (∀ i ∈ c3Db.issues, i.id = 1 →
      { i with status := IssueStatus.REPLIED, replyMessageId := some c5ReplyAt.id,
               repliedById := some c5ReplyAt.memberId, repliedAt := some c5ReplyAt.createdAt,
               replyRelevanceScore := some (60 : Int) } ∈
        (updateIssueReply c3Db 1 .REPLIED c5ReplyAt 60).issues) ∧
    (processReplies c5Env "how do I log in" 1 c3Db
        { messagesAnalyzed := 0, issuesCreated := 0, issuesReplied := 0, tagsCreated := 0 }
        [c5ReplyBelow] =
      processReplies c5Env "how do I log in" 1 c3Db
        { messagesAnalyzed := 0, issuesCreated := 0, issuesReplied := 0, tagsCreated := 0 }
        []) :=
  c5_threshold_boundary c5Env "how do I log in" 1 c3Db c3Db _ _
    c5ReplyAt c5ReplyBelow [] [] "good answer" "vague answer"
    { relevanceScore := 60, isCounterQuestion := false }
    { relevanceScore := 59, isCounterQuestion := false }
    rfl (by rfl) rfl rfl (by rfl) rfl rfl

/-!  ## Helper lemmas: tag deduplication  -/

/-- The relation count only depends on the relations table. -/
theorem countRel_congr (db db' : DB) (issueId tid : Nat)
    (h : db'.relations = db.relations) :
    countRel db' issueId tid = countRel db issueId tid := by
  unfold countRel
  rw [h]

/-- Appending one relation row adds one to the count of exactly its pair. -/
theorem countRel_of_append (db db' : DB) (issueId tid : Nat) (rel : TagRelation)
    (h : db'.relations = db.relations ++ [rel]) :
    countRel db' issueId tid =
      countRel db issueId tid +
        (if (rel.issueId == issueId && rel.tagId == tid) = true then 1 else 0) := by
  unfold countRel
  rw [h, List.filter_append, List.length_append]
  congr 1
  by_cases hc : (rel.issueId == issueId && rel.tagId == tid) = true <;> simp [hc]

/-- The create-if-novel step never touches the relations table. -/
theorem tagCreateStep_relations (db : DB) (tagNames : List String)
    (res : AnalysisResults) (merge : Bool) (tagName : String) :
    (tagCreateStep db tagNames res merge tagName).1.relations = db.relations := by
  unfold tagCreateStep
  split
  · rfl
  · split <;> rfl

/-- One tag-loop iteration either attaches nothing, or attaches exactly one
tag identity that was not yet in `addedTagIds`. -/
theorem processOneTag_shape (env : AnalysisEnv) (issueId : Nat) (db : DB)
    (tagNames : List String) (added : List Nat) (res : AnalysisResults)
    (tagName : String) (db1 : DB) (tn1 : List String) (added1 : List Nat)
    (res1 : AnalysisResults)
    (h : processOneTag env issueId db tagNames added res tagName =
      .ok (db1, tn1, added1, res1)) :
    (added1 = added ∧ db1.relations = db.relations) ∨
    (∃ tid0, tid0 ∉ added ∧ added1 = added ++ [tid0] ∧
      db1.relations = db.relations ++ [{ issueId := issueId, tagId := tid0 }]) := by
  simp only [processOneTag] at h
  split at h
  · cases h
  · split at h
    · simp only [Except.ok.injEq, Prod.mk.injEq] at h
      obtain ⟨hdb, -, hadd, -⟩ := h
      subst hdb
      subst hadd
      exact .inl ⟨rfl, tagCreateStep_relations ..⟩
    · rename_i tag _
      split at h
      · rename_i hcont
        simp only [Except.ok.injEq, Prod.mk.injEq] at h
        obtain ⟨hdb, -, hadd, -⟩ := h
        subst hdb
        subst hadd
        exact .inl ⟨rfl, tagCreateStep_relations ..⟩
      · rename_i hcont
        simp only [Except.ok.injEq, Prod.mk.injEq] at h
        obtain ⟨hdb, -, hadd, -⟩ := h
        subst hdb
        subst hadd
        refine .inr ⟨tag.id, ?_, rfl, ?_⟩
        · simpa using hcont
        · have hb : ∀ (x : DB) (rels : List TagRelation) (t : Nat),
              (bumpUsage { x with relations := rels } t).relations = rels :=
            fun _ _ _ => rfl
          rw [hb, tagCreateStep_relations]

/-- One tag-loop iteration preserves the attachment invariant: identities
outside `addedTagIds` have no relation row for this Issue, identities inside
have at most one. -/
theorem processOneTag_inv (env : AnalysisEnv) (issueId : Nat) (db : DB)
    (tagNames : List String) (added : List Nat) (res : AnalysisResults)
    (tagName : String) (db1 : DB) (tn1 : List String) (added1 : List Nat)
    (res1 : AnalysisResults)
    (h : processOneTag env issueId db tagNames added res tagName =
      .ok (db1, tn1, added1, res1))
    (h0 : ∀ tid, tid ∉ added → countRel db issueId tid = 0)
    (h1 : ∀ tid, tid ∈ added → countRel db issueId tid ≤ 1) :
    (∀ tid, tid ∉ added1 → countRel db1 issueId tid = 0) ∧
    (∀ tid, tid ∈ added1 → countRel db1 issueId tid ≤ 1) := by
  rcases processOneTag_shape env issueId db tagNames added res tagName db1 tn1 added1 res1 h
    with ⟨ha, hr⟩ | ⟨tid0, hnot, ha, hr⟩
  · subst ha
    refine ⟨fun tid ht => ?_, fun tid ht => ?_⟩
    · rw [countRel_congr db db1 issueId tid hr]
      exact h0 tid ht
    · rw [countRel_congr db db1 issueId tid hr]
      exact h1 tid ht
  · subst ha
    refine ⟨fun tid ht => ?_, fun tid ht => ?_⟩
    · rw [List.mem_append, List.mem_singleton] at ht
      push_neg at ht
      obtain ⟨hta, htb⟩ := ht
      rw [countRel_of_append db db1 issueId tid _ hr]
      simp [Ne.symm htb, h0 tid hta]
    · rw [countRel_of_append db db1 issueId tid _ hr]
      rw [List.mem_append, List.mem_singleton] at ht
      rcases ht with hta | htb
      · have hne : tid0 ≠ tid := fun hEq => hnot (hEq ▸ hta)
        simpa [hne] using h1 tid hta
      · subst htb
        simp [h0 tid hnot]

/-- Along the whole tag loop, each tag identity ends attached at most once. -/
theorem processTags_bound (env : AnalysisEnv) (issueId : Nat) :
    ∀ (suggested : List String) (db : DB) (tagNames : List String) (added : List Nat)
      (res : AnalysisResults) (db' : DB) (tn' : List String) (res' : AnalysisResults),
      processTags env issueId db tagNames added res suggested = .ok (db', tn', res') →
      (∀ tid, tid ∉ added → countRel db issueId tid = 0) →
      (∀ tid, tid ∈ added → countRel db issueId tid ≤ 1) →
      ∀ tid, countRel db' issueId tid ≤ 1 := by
  intro suggested
  induction suggested with
  | nil =>
    intro db tagNames added res db' tn' res' h h0 h1 tid
    simp only [processTags, Except.ok.injEq, Prod.mk.injEq] at h
    obtain ⟨hdb, -, -⟩ := h
    subst hdb
    by_cases htid : tid ∈ added
    · exact h1 tid htid
    · rw [h0 tid htid]
      exact Nat.zero_le 1
  | cons t rest ih =>
    intro db tagNames added res db' tn' res' h h0 h1 tid
    cases hstep : processOneTag env issueId db tagNames added res t with
    | error dbe =>
      simp only [processTags, hstep] at h
      exact Except.noConfusion h
    | ok quad =>
      obtain ⟨db1, tn1, added1, res1⟩ := quad
      simp only [processTags, hstep] at h
      obtain ⟨g0, g1⟩ :=
        processOneTag_inv env issueId db tagNames added res t db1 tn1 added1 res1 hstep h0 h1
      exact ih db1 tn1 added1 res1 db' tn' res' h g0 g1 tid

/-!  ## Theorems: C7  -/

/-- C7.  After the tag loop of `runAnalysis` processes the N AI-suggested
names for one freshly created Issue (no relation rows for it yet, empty
`addedTagIds`), each distinct tag identity appears at most once in that
Issue's Issue-Tag relation, even when the AI suggests synonymous or
duplicate names across the calls. -/
theorem c7_tag_uniqueness (env : AnalysisEnv) (issueId : Nat)
    (suggested : List String) (db : DB) (tagNames : List String)
    (res : AnalysisResults) (db' : DB) (tn' : List String) (res' : AnalysisResults)
    (h : processTags env issueId db tagNames [] res suggested = .ok (db', tn', res'))
    (hfresh : ∀ tid, countRel db issueId tid = 0) :
    ∀ tid, countRel db' issueId tid ≤ 1 :=
  processTags_bound env issueId suggested db tagNames [] res db' tn' res' h
    (fun tid _ => hfresh tid) (fun tid htid => absurd htid (List.not_mem_nil tid))

/-- Witness for `c7_tag_uniqueness`: tags "setup" and the synonymous
"install" are merged by the oracle, so tag identity 1 is attached once. -/
theorem c7_tag_uniqueness_witness :
    countRel
      { messages := [], issues := [],
        tags := [{ id := 1, name := "setup", usageCount := 1 }],
        relations := [{ issueId := 5, tagId := 1 }],
        customers := [], nextIssueId := 6, nextTagId := 2 } 5 1 ≤ 1 :=
  c7_tag_uniqueness c7Env 5 ["setup", "install"] c7Db ["setup"] res0
    { messages := [], issues := [],
      tags := [{ id := 1, name := "setup", usageCount := 1 }],
      relations := [{ issueId := 5, tagId := 1 }],
      customers := [], nextIssueId := 6, nextTagId := 2 }
    ["setup"] res0 (by rfl) (fun _ => rfl) 1

/-!  ## Helper lemmas: frame conditions of the message loop  -/

/-- Finding by id commutes with an id-preserving map over the customers. -/
theorem find?_map_id_preserving (l : List Customer) (cid : Nat)
    (f : Customer → Customer) (hid : ∀ c, (f c).id = c.id) :
    (l.map f).find? (fun c => c.id == cid) =
      (l.find? (fun c => c.id == cid)).map f := by
  induction l with
  | nil => rfl
  | cons c cs ih =>
    by_cases hc : (c.id == cid) = true
    · rw [List.map_cons,
        List.find?_cons_of_pos (p := fun x : Customer => x.id == cid) _
          (by show ((f c).id == cid) = true; rw [hid c]; exact hc),
        List.find?_cons_of_pos (p := fun x : Customer => x.id == cid) _ hc]
      rfl
    · rw [List.map_cons,
        List.find?_cons_of_neg (p := fun x : Customer => x.id == cid) _
          (by show ¬ ((f c).id == cid) = true; rw [hid c]; exact hc),
        List.find?_cons_of_neg (p := fun x : Customer => x.id == cid) _ hc]
      exact ih

/-- One tag-loop iteration only writes the tag and relation tables. -/
theorem processOneTag_frame (env : AnalysisEnv) (issueId : Nat) (db : DB)
    (tagNames : List String) (added : List Nat) (res : AnalysisResults)
    (tagName : String) (db1 : DB) (tn1 : List String) (added1 : List Nat)
    (res1 : AnalysisResults)
    (h : processOneTag env issueId db tagNames added res tagName =
      .ok (db1, tn1, added1, res1)) :
    db1.messages = db.messages ∧ db1.customers = db.customers ∧
      db1.issues = db.issues := by
  have hc : ∀ (x : DB) (tn : List String) (r : AnalysisResults) (b : Bool) (t : String),
      (tagCreateStep x tn r b t).1.messages = x.messages ∧
      (tagCreateStep x tn r b t).1.customers = x.customers ∧
      (tagCreateStep x tn r b t).1.issues = x.issues := by
    intro x tn r b t
    unfold tagCreateStep
    split
    · exact ⟨rfl, rfl, rfl⟩
    · split
      · exact ⟨rfl, rfl, rfl⟩
      · exact ⟨rfl, rfl, rfl⟩
  simp only [processOneTag] at h
  split at h
  · cases h
  · split at h
    · simp only [Except.ok.injEq, Prod.mk.injEq] at h
      obtain ⟨hdb, -, -, -⟩ := h
      subst hdb
      exact hc ..
    · split at h
      · simp only [Except.ok.injEq, Prod.mk.injEq] at h
        obtain ⟨hdb, -, -, -⟩ := h
        subst hdb
        exact hc ..
      · simp only [Except.ok.injEq, Prod.mk.injEq] at h
        obtain ⟨hdb, -, -, -⟩ := h
        subst hdb
        exact hc ..

/-- The whole tag loop only writes the tag and relation tables. -/
theorem processTags_frame (env : AnalysisEnv) (issueId : Nat) :
    ∀ (suggested : List String) (db : DB) (tagNames : List String) (added : List Nat)
      (res : AnalysisResults) (db' : DB) (tn' : List String) (res' : AnalysisResults),
      processTags env issueId db tagNames added res suggested = .ok (db', tn', res') →
      db'.messages = db.messages ∧ db'.customers = db.customers ∧
        db'.issues = db.issues := by
  intro suggested
  induction suggested with
  | nil =>
    intro db tagNames added res db' tn' res' h
    simp only [processTags, Except.ok.injEq, Prod.mk.injEq] at h
    obtain ⟨hdb, -, -⟩ := h
    subst hdb
    exact ⟨rfl, rfl, rfl⟩
  | cons t rest ih =>
    intro db tagNames added res db' tn' res' h
    cases hstep : processOneTag env issueId db tagNames added res t with
    | error dbe =>
      simp only [processTags, hstep] at h
      exact Except.noConfusion h
    | ok quad =>
      obtain ⟨db1, tn1, added1, res1⟩ := quad
      simp only [processTags, hstep] at h
      obtain ⟨m1, c1, i1⟩ :=
        processOneTag_frame env issueId db tagNames added res t db1 tn1 added1 res1 hstep
      obtain ⟨m2, c2, i2⟩ := ih db1 tn1 added1 res1 db' tn' res' h
      exact ⟨m2.trans m1, c2.trans c1, i2.trans i1⟩

/-- The reply-scan update keeps ids and trigger references of all issues. -/
theorem updateIssueReply_hasIssueFor (db : DB) (issueId : Nat) (st : IssueStatus)
    (r : Message) (score : Int) (t : Nat) :
    hasIssueFor (updateIssueReply db issueId st r score) t = hasIssueFor db t := by
  unfold hasIssueFor updateIssueReply
  induction db.issues with
  | nil => rfl
  | cons i is ih =>
    simp only [List.map_cons, List.any_cons, ih]
    congr 1
    by_cases hi : (i.id == issueId) = true <;> simp [hi]

/-- The staff-reply scan only writes issue rows, preserving ids and
triggers. -/
theorem processReplies_frame (env : AnalysisEnv) (q : String) (issueId : Nat) :
    ∀ (replies : List Message) (db : DB) (res : AnalysisResults) (db' : DB)
      (res' : AnalysisResults),
      processReplies env q issueId db res replies = .ok (db', res') →
      db'.messages = db.messages ∧ db'.customers = db.customers ∧
        db'.tags = db.tags ∧ db'.relations = db.relations ∧
        (∀ t, hasIssueFor db' t = hasIssueFor db t) := by
  intro replies
  induction replies with
  | nil =>
    intro db res db' res' h
    simp only [processReplies, Except.ok.injEq, Prod.mk.injEq] at h
    obtain ⟨hdb, -⟩ := h
    subst hdb
    exact ⟨rfl, rfl, rfl, rfl, fun _ => rfl⟩
  | cons r rest ih =>
    intro db res db' res' h
    rw [show processReplies env q issueId db res (r :: rest) =
        (match r.content with
         | none => processReplies env q issueId db res rest
         | some rc =>
           match env.ai.evaluateReply q rc with
           | .error _ => .error db
           | .ok ev =>
             if env.replyThreshold ≤ ev.relevanceScore then
               .ok (updateIssueReply db issueId .REPLIED r ev.relevanceScore,
                    { res with issuesReplied := res.issuesReplied + 1 })
             else if ev.isCounterQuestion then
               .ok (updateIssueReply db issueId .WAITING_CUSTOMER r ev.relevanceScore, res)
             else processReplies env q issueId db res rest) from rfl] at h
    split at h
    · exact ih db res db' res' h
    · split at h
      · exact Except.noConfusion h
      · split at h
        · simp only [Except.ok.injEq, Prod.mk.injEq] at h
          obtain ⟨hdb, -⟩ := h
          subst hdb
          exact ⟨rfl, rfl, rfl, rfl, fun t => updateIssueReply_hasIssueFor ..⟩
        · split at h
          · simp only [Except.ok.injEq, Prod.mk.injEq] at h
            obtain ⟨hdb, -⟩ := h
            subst hdb
            exact ⟨rfl, rfl, rfl, rfl, fun t => updateIssueReply_hasIssueFor ..⟩
          · exact ih db res db' res' h

/-- The trigger index only depends on the issues table. -/
theorem hasIssueFor_congr (db db1 : DB) (h : db1.issues = db.issues) (t : Nat) :
    hasIssueFor db1 t = hasIssueFor db t := by
  unfold hasIssueFor
  rw [h]

/-- Appending one issue row extends the trigger index by its trigger. -/
theorem hasIssueFor_of_append (db db1 : DB) (issue : Issue)
    (h : db1.issues = db.issues ++ [issue]) (t : Nat) :
    hasIssueFor db1 t = (hasIssueFor db t || (issue.triggerMessageId == t)) := by
  unfold hasIssueFor
  rw [h]
  simp [List.any_append]

/-- The create-and-track step never writes messages or customers, only adds
the new trigger reference, and ends with the message tracked. -/
theorem createAndTrack_spec (env : AnalysisEnv) (db : DB) (tagNames : List String)
    (res : AnalysisResults) (m : Message) (content : String)
    (analysis : QuestionAnalysis) (db' : DB) (tn' : List String)
    (res' : AnalysisResults)
    (h : createAndTrack env db tagNames res m content analysis = .ok (db', tn', res')) :
    db'.messages = db.messages ∧ db'.customers = db.customers ∧
    (∀ t, hasIssueFor db t = true → hasIssueFor db' t = true) ∧
    hasIssueFor db' m.id = true := by
  unfold createAndTrack at h
  split at h
  · exact Except.noConfusion h
  · cases htags : processTags env db.nextIssueId (issueCreateStep env db m analysis)
        tagNames [] { res with issuesCreated := res.issuesCreated + 1 }
        analysis.suggestedTags with
    | error dbe =>
      simp only [htags] at h
      exact Except.noConfusion h
    | ok triple =>
      obtain ⟨db2, tn2, res2⟩ := triple
      simp only [htags] at h
      cases hreps : processReplies env content db.nextIssueId db2 res2
          (subsequentStaffMessages db2 m.groupId m.createdAt) with
      | error dbe =>
        simp only [hreps] at h
        exact Except.noConfusion h
      | ok pair =>
        obtain ⟨db3, res3⟩ := pair
        simp only [hreps, Except.ok.injEq, Prod.mk.injEq] at h
        obtain ⟨hdb, -, -⟩ := h
        subst hdb
        obtain ⟨htm, htc, hti⟩ := processTags_frame env _ _ _ _ _ _ _ _ _ htags
        obtain ⟨hrm, hrc, -, -, hrh⟩ := processReplies_frame env _ _ _ _ _ _ _ hreps
        have hstep : ∀ t, hasIssueFor db3 t =
            (hasIssueFor db t || ((newIssueFor env db m analysis).triggerMessageId == t)) := by
          intro t
          rw [hrh t, hasIssueFor_congr _ _ hti t]
          exact hasIssueFor_of_append db (issueCreateStep env db m analysis) _ rfl t
        have hm : (issueCreateStep env db m analysis).messages = db.messages := rfl
        have hcu : (issueCreateStep env db m analysis).customers = db.customers := rfl
        refine ⟨hrm.trans (htm.trans hm), hrc.trans (htc.trans hcu), fun t ht => ?_, ?_⟩
        · rw [hstep t, ht]
          rfl
        · rw [hstep m.id]
          simp [newIssueFor]

/-- One message-loop iteration: it never writes messages or customers, only
ever adds trigger references, and leaves the message handled (staff, empty,
already-tracked, or classified non-question). -/
theorem processOne_spec (env : AnalysisEnv) (db : DB) (tagNames : List String)
    (res : AnalysisResults) (m : Message) (db' : DB) (tn' : List String)
    (res' : AnalysisResults)
    (h : processOne env db tagNames res m = .ok (db', tn', res')) :
    db'.messages = db.messages ∧ db'.customers = db.customers ∧
    (∀ t, hasIssueFor db t = true → hasIssueFor db' t = true) ∧
    handled env db' m := by
  simp only [processOne] at h
  split at h
  · rename_i hstaff
    simp only [Except.ok.injEq, Prod.mk.injEq] at h
    obtain ⟨hdb, -, -⟩ := h
    subst hdb
    exact ⟨rfl, rfl, fun t ht => ht, Or.inl (by simpa using hstaff)⟩
  · rename_i hstaff
    split at h
    · rename_i hcontent
      simp only [Except.ok.injEq, Prod.mk.injEq] at h
      obtain ⟨hdb, -, -⟩ := h
      subst hdb
      exact ⟨rfl, rfl, fun t ht => ht, Or.inr (Or.inl hcontent)⟩
    · rename_i content hcontent
      split at h
      · rename_i hhas
        simp only [Except.ok.injEq, Prod.mk.injEq] at h
        obtain ⟨hdb, -, -⟩ := h
        subst hdb
        exact ⟨rfl, rfl, fun t ht => ht, Or.inr (Or.inr (Or.inl hhas))⟩
      · rename_i hhas
        split at h
        · exact Except.noConfusion h
        · rename_i analysis hana
          split at h
          · rename_i hnq
            simp only [Except.ok.injEq, Prod.mk.injEq] at h
            obtain ⟨hdb, -, -⟩ := h
            subst hdb
            refine ⟨rfl, rfl, fun t ht => ht, Or.inr (Or.inr (Or.inr ?_))⟩
            exact ⟨content, analysis, hcontent, hana, by simpa using hnq⟩
          · obtain ⟨hm2, hc2, hmono, hhas2⟩ :=
              createAndTrack_spec env db tagNames _ m content analysis db' tn' res' h
            exact ⟨hm2, hc2, hmono, Or.inr (Or.inr (Or.inl hhas2))⟩

/-- Handledness transfers along trigger-preserving store growth. -/
theorem handled_mono (env : AnalysisEnv) (db db' : DB) (m : Message)
    (h : handled env db m)
    (hmono : ∀ t, hasIssueFor db t = true → hasIssueFor db' t = true) :
    handled env db' m := by
  rcases h with hs | hn | hi | hq
  · exact Or.inl hs
  · exact Or.inr (Or.inl hn)
  · exact Or.inr (Or.inr (Or.inl (hmono _ hi)))
  · exact Or.inr (Or.inr (Or.inr hq))

/-- Re-processing a handled message is a no-op on the store and creates no
Issue. -/
theorem processOne_handled (env : AnalysisEnv) (db : DB) (tagNames : List String)
    (res : AnalysisResults) (m : Message) (h : handled env db m) :
    ∃ res', processOne env db tagNames res m = .ok (db, tagNames, res') ∧
      res'.issuesCreated = res.issuesCreated := by
  by_cases hstaff : (m.role == MemberRole.STAFF) = true
  · exact ⟨res, by simp [processOne, hstaff], rfl⟩
  · cases hcontent : m.content with
    | none => exact ⟨res, by simp [processOne, hstaff, hcontent], rfl⟩
    | some content =>
      by_cases hhas : hasIssueFor db m.id = true
      · exact ⟨{ res with messagesAnalyzed := res.messagesAnalyzed + 1 },
          by simp [processOne, hstaff, hcontent, hhas], rfl⟩
      · rcases h with hs | hn | hi | ⟨c, a, hc, ha, hq⟩
        · exact absurd (by simp [hs]) hstaff
        · rw [hcontent] at hn
          exact Option.noConfusion hn
        · exact absurd hi hhas
        · rw [hcontent] at hc
          injection hc with hc
          subst hc
          exact ⟨{ res with messagesAnalyzed := res.messagesAnalyzed + 1 },
            by simp [processOne, hstaff, hcontent, hhas, ha, hq], rfl⟩

/-- The message loop never writes messages or customers, only adds trigger
references, and leaves every processed message handled. -/
theorem processMessages_spec (env : AnalysisEnv) :
    ∀ (ms : List Message) (db : DB) (tagNames : List String) (res : AnalysisResults)
      (db' : DB) (tn' : List String) (res' : AnalysisResults),
      processMessages env db tagNames res ms = .ok (db', tn', res') →
      db'.messages = db.messages ∧ db'.customers = db.customers ∧
      (∀ t, hasIssueFor db t = true → hasIssueFor db' t = true) ∧
      (∀ m ∈ ms, handled env db' m) := by
  intro ms
  induction ms with
  | nil =>
    intro db tagNames res db' tn' res' h
    simp only [processMessages, Except.ok.injEq, Prod.mk.injEq] at h
    obtain ⟨hdb, -, -⟩ := h
    subst hdb
    exact ⟨rfl, rfl, fun t ht => ht, by simp⟩
  | cons m ms ih =>
    intro db tagNames res db' tn' res' h
    cases hstep : processOne env db tagNames res m with
    | error dbe =>
      simp only [processMessages, hstep] at h
      exact Except.noConfusion h
    | ok triple =>
      obtain ⟨db1, tn1, res1⟩ := triple
      simp only [processMessages, hstep] at h
      obtain ⟨m1, c1, mono1, hh1⟩ := processOne_spec env db tagNames res m db1 tn1 res1 hstep
      obtain ⟨m2, c2, mono2, hh2⟩ := ih db1 tn1 res1 db' tn' res' h
      refine ⟨m2.trans m1, c2.trans c1, fun t ht => mono2 t (mono1 t ht), ?_⟩
      intro x hx
      rw [List.mem_cons] at hx
      rcases hx with hx | hx
      · subst hx
        exact handled_mono env db1 db' x hh1 mono2
      · exact hh2 x hx

/-- Re-processing a fully handled batch is a no-op on the store and creates
zero additional issues. -/
theorem processMessages_handled (env : AnalysisEnv) :
    ∀ (ms : List Message) (db : DB) (tagNames : List String) (res : AnalysisResults),
      (∀ m ∈ ms, handled env db m) →
      ∃ res', processMessages env db tagNames res ms = .ok (db, tagNames, res') ∧
        res'.issuesCreated = res.issuesCreated := by
  intro ms
  induction ms with
  | nil =>
    intro db tagNames res _
    exact ⟨res, rfl, rfl⟩
  | cons m ms ih =>
    intro db tagNames res hall
    obtain ⟨res1, hstep, hic⟩ := processOne_handled env db tagNames res m (hall m (by simp))
    obtain ⟨res2, hrest, hic2⟩ := ih db tagNames res1 (fun x hx => hall x (by simp [hx]))
    refine ⟨res2, ?_, hic2.trans hic⟩
    simp only [processMessages, hstep]
    exact hrest

/-!  ## Helper lemmas: customer sentiment  -/

/-- The qualifying-recent query only depends on the messages table. -/
theorem qualifyingRecent_congr (db db' : DB) (cid : Nat)
    (h : db'.messages = db.messages) :
    qualifyingRecent db' cid = qualifyingRecent db cid := by
  unfold qualifyingRecent
  rw [h]

/-- The stored-sentiment lookup only depends on the customers table. -/
theorem sentimentOf_congr (db db' : DB) (cid : Nat)
    (h : db'.customers = db.customers) :
    sentimentOf db' cid = sentimentOf db cid := by
  unfold sentimentOf
  rw [h]

/-- A sentiment update for a customer with no qualifying messages is a
no-op. -/
theorem updateCustomerSentiment_empty (env : AnalysisEnv) (db : DB) (cid : Nat)
    (h : qualifyingRecent db cid = []) :
    updateCustomerSentiment env db cid = .ok db := by
  simp [updateCustomerSentiment, h]

/-- One sentiment update writes only the customers table. -/
theorem updateCustomerSentiment_frame (env : AnalysisEnv) (db : DB) (cid : Nat)
    (db' : DB) (h : updateCustomerSentiment env db cid = .ok db') :
    db'.messages = db.messages ∧ db'.issues = db.issues := by
  simp only [updateCustomerSentiment] at h
  split at h
  · split at h
    · exact Except.noConfusion h
    · simp only [Except.ok.injEq] at h
      subst h
      exact ⟨rfl, rfl⟩
  · simp only [Except.ok.injEq] at h
    subst h
    exact ⟨rfl, rfl⟩

/-- A sentiment update for another customer, or for one with no qualifying
messages, keeps this customer's stored sentiment. -/
theorem updateCustomerSentiment_sentimentOf (env : AnalysisEnv) (db : DB)
    (cid cid' : Nat) (db' : DB)
    (h : updateCustomerSentiment env db cid' = .ok db')
    (hne : cid' ≠ cid ∨ qualifyingRecent db cid' = []) :
    sentimentOf db' cid = sentimentOf db cid := by
  rcases hne with hne | hq
  · simp only [updateCustomerSentiment] at h
    split at h
    · split at h
      · exact Except.noConfusion h
      · rename_i r hora
        simp only [Except.ok.injEq] at h
        subst h
        unfold sentimentOf
        rw [find?_map_id_preserving db.customers cid _
          (fun c => by by_cases hcc : (c.id == cid') = true <;> simp [hcc])]
        cases hf : db.customers.find? (fun c => c.id == cid) with
        | none => rfl
        | some c0 =>
          have hp : c0.id = cid := by
            simpa using List.find?_some hf
          have hnp : ¬ c0.id = cid' := by
            rw [hp]
            exact fun hEq => hne hEq.symm
          simp [hnp]
    · simp only [Except.ok.injEq] at h
      subst h
      rfl
  · rw [updateCustomerSentiment_empty env db cid' hq] at h
    simp only [Except.ok.injEq] at h
    subst h
    rfl

/-- The sentiment loop writes only the customers table. -/
theorem sentimentLoop_frame (env : AnalysisEnv) :
    ∀ (cids : List Nat) (db db' : DB), sentimentLoop env db cids = .ok db' →
      db'.messages = db.messages ∧ db'.issues = db.issues := by
  intro cids
  induction cids with
  | nil =>
    intro db db' h
    simp only [sentimentLoop, Except.ok.injEq] at h
    subst h
    exact ⟨rfl, rfl⟩
  | cons c cs ih =>
    intro db db' h
    cases hstep : updateCustomerSentiment env db c with
    | error dbe =>
      simp only [sentimentLoop, hstep] at h
      exact Except.noConfusion h
    | ok db1 =>
      simp only [sentimentLoop, hstep] at h
      obtain ⟨hm1, hi1⟩ := updateCustomerSentiment_frame env db c db1 hstep
      obtain ⟨hm2, hi2⟩ := ih db1 db' h
      exact ⟨hm2.trans hm1, hi2.trans hi1⟩

/-- The sentiment loop keeps the stored sentiment of every customer with no
qualifying recent messages. -/
theorem sentimentLoop_sentimentOf (env : AnalysisEnv) (cid : Nat) :
    ∀ (cids : List Nat) (db db' : DB),
      sentimentLoop env db cids = .ok db' →
      qualifyingRecent db cid = [] →
      sentimentOf db' cid = sentimentOf db cid := by
  intro cids
  induction cids with
  | nil =>
    intro db db' h _
    simp only [sentimentLoop, Except.ok.injEq] at h
    subst h
    rfl
  | cons c cs ih =>
    intro db db' h hq
    cases hstep : updateCustomerSentiment env db c with
    | error dbe =>
      simp only [sentimentLoop, hstep] at h
      exact Except.noConfusion h
    | ok db1 =>
      simp only [sentimentLoop, hstep] at h
      obtain ⟨hm1, -⟩ := updateCustomerSentiment_frame env db c db1 hstep
      have hs1 : sentimentOf db1 cid = sentimentOf db cid := by
        by_cases hcc : c = cid
        · subst hcc
          exact updateCustomerSentiment_sentimentOf env db c c db1 hstep (Or.inr hq)
        · exact updateCustomerSentiment_sentimentOf env db cid c db1 hstep (Or.inl hcc)
      have hq1 : qualifyingRecent db1 cid = [] := by
        rw [qualifyingRecent_congr db db1 cid hm1]
        exact hq
      exact (ih db1 db' h hq1).trans hs1

/-- A sentiment update that succeeded transfers to any store with the same
messages table. -/
theorem updateCustomerSentiment_ok_transfer (env : AnalysisEnv) (db dbX : DB)
    (cid : Nat) (db1 : DB)
    (h : updateCustomerSentiment env db cid = .ok db1)
    (hm : dbX.messages = db.messages) :
    ∃ db1X, updateCustomerSentiment env dbX cid = .ok db1X ∧
      db1X.messages = dbX.messages := by
  have hqq : qualifyingRecent dbX cid = qualifyingRecent db cid :=
    qualifyingRecent_congr db dbX cid hm
  simp only [updateCustomerSentiment] at h ⊢
  rw [hqq]
  split at h
  · rename_i hlen
    rw [if_pos hlen]
    cases hora : env.ai.analyzeCustomerSentiment
        (((qualifyingRecent db cid).map (fun m => m.content.getD "")).reverse) with
    | error u =>
      simp only [hora] at h
      exact Except.noConfusion h
    | ok r =>
      simp only [hora]
      exact ⟨_, rfl, rfl⟩
  · rename_i hlen
    rw [if_neg hlen]
    exact ⟨dbX, rfl, rfl⟩

/-- A sentiment loop that succeeded transfers to any store with the same
messages table. -/
theorem sentimentLoop_ok_transfer (env : AnalysisEnv) :
    ∀ (cids : List Nat) (db db2 dbX : DB),
      sentimentLoop env db cids = .ok db2 →
      dbX.messages = db.messages →
      ∃ db2X, sentimentLoop env dbX cids = .ok db2X := by
  intro cids
  induction cids with
  | nil =>
    intro db db2 dbX _ _
    exact ⟨dbX, rfl⟩
  | cons c cs ih =>
    intro db db2 dbX h hm
    cases hstep : updateCustomerSentiment env db c with
    | error dbe =>
      simp only [sentimentLoop, hstep] at h
      exact Except.noConfusion h
    | ok db1 =>
      simp only [sentimentLoop, hstep] at h
      obtain ⟨db1X, hstepX, hmX⟩ :=
        updateCustomerSentiment_ok_transfer env db dbX c db1 hstep hm
      have hm1 : db1X.messages = db1.messages := by
        rw [hmX, hm]
        exact (updateCustomerSentiment_frame env db c db1 hstep).1.symm
      obtain ⟨db2X, hrest⟩ := ih db1 db2 db1X h hm1
      refine ⟨db2X, ?_⟩
      simp only [sentimentLoop, hstepX]
      exact hrest

/-- The window fetch only depends on the messages table. -/
theorem fetchMessages_congr (p : AnalysisParams) (db db' : DB)
    (h : db'.messages = db.messages) :
    fetchMessages p db' = fetchMessages p db := by
  unfold fetchMessages
  rw [h]

/-!  ## Theorems: C8  -/

/-- C8.  The Sentiment Aggregator fully replaces the customer's stored
sentiment with the newly computed value — never merging with the previous
value: the written sentiment is exactly `mapSentimentExtended` of the AI
result, whatever was stored before — and every customer with zero qualifying
recent messages (non-empty, authored by external parties) keeps its stored
sentiment across a whole `runAnalysis`. -/
theorem c8_sentiment_replacement (env : AnalysisEnv) :
    (∀ (db : DB) (cid : Nat) (r : SentimentAnalysis) (db' : DB),
      (qualifyingRecent db cid).length > 0 →
      env.ai.analyzeCustomerSentiment
        (((qualifyingRecent db cid).map (fun m => m.content.getD "")).reverse) = .ok r →
      updateCustomerSentiment env db cid = .ok db' →
      ∀ c ∈ db'.customers, c.id = cid →
        c.sentiment = mapSentimentExtended r.sentiment) ∧
    (∀ (p : AnalysisParams) (db db' : DB) (res' : AnalysisResults) (cid : Nat),
      runAnalysis env p db = .ok (db', res') →
      qualifyingRecent db cid = [] →
      sentimentOf db' cid = sentimentOf db cid) := by
  constructor
  · intro db cid r db' hlen hora hupd c hc hcid
    simp only [updateCustomerSentiment] at hupd
    rw [if_pos hlen] at hupd
    simp only [hora, Except.ok.injEq] at hupd
    subst hupd
    rw [List.mem_map] at hc
    obtain ⟨c0, hc0, hfc⟩ := hc
    by_cases h0 : (c0.id == cid) = true
    · rw [← hfc]
      simp [h0]
    · rw [← hfc] at hcid
      simp at h0
      rw [if_neg (by simpa using h0)] at hcid
      exact absurd hcid h0
  · intro p db db' res' cid h hq
    simp only [runAnalysis] at h
    cases hpm : processMessages env db (db.tags.map (fun t => t.name))
        { messagesAnalyzed := 0, issuesCreated := 0, issuesReplied := 0, tagsCreated := 0 }
        (fetchMessages p db) with
    | error dbe =>
      simp only [hpm] at h
      exact Except.noConfusion h
    | ok triple =>
      obtain ⟨dbA, tnA, resA⟩ := triple
      simp only [hpm] at h
      cases hsl : sentimentLoop env dbA
          (dedupFirst ((fetchMessages p db).filterMap (fun m => m.customerId))) with
      | error dbe =>
        simp only [hsl] at h
        exact Except.noConfusion h
      | ok dbB =>
        simp only [hsl, Except.ok.injEq, Prod.mk.injEq] at h
        obtain ⟨hdbB, -⟩ := h
        subst hdbB
        obtain ⟨hAm, hAc, -, -⟩ :=
          processMessages_spec env (fetchMessages p db) db _ _ dbA tnA resA hpm
        have hqA : qualifyingRecent dbA cid = [] := by
          rw [qualifyingRecent_congr db dbA cid hAm]
          exact hq
        calc sentimentOf dbB cid
            = sentimentOf dbA cid := sentimentLoop_sentimentOf env cid _ dbA dbB hsl hqA
          _ = sentimentOf db cid := sentimentOf_congr db dbA cid hAc

/-- Witness for `c8_sentiment_replacement` at concrete inputs: customer 7's
stored POSITIVE is replaced by the freshly computed AT_RISK, and customer 9
with no qualifying messages is untouched by `runAnalysis`. -/
theorem c8_sentiment_replacement_witness :
    ({ id := 7, sentiment := Sentiment.AT_RISK } : Customer).sentiment =
      mapSentimentExtended Sent4.at_risk ∧
    sentimentOf c8QuietDb 9 = sentimentOf c8QuietDb 9 :=
  ⟨(c8_sentiment_replacement c8Env).1 c8Db 7 { sentiment := .at_risk }
      { c8Db with customers := [{ id := 7, sentiment := .AT_RISK }] }
      (by decide) rfl rfl
      { id := 7, sentiment := .AT_RISK } (by simp) rfl,
   (c8_sentiment_replacement c8Env).2 { groupId := none, since := none }
      c8QuietDb c8QuietDb res0 9 rfl rfl⟩

/-!  ## Theorems: C6  -/

/-- C6.  Running `runAnalysis` a second time over the same window with the
same deterministic oracles and no new messages creates zero additional
Issues: every message that got an Issue in the first run is skipped, every
other message is re-classified to the same non-question verdict, and the
issues table is unchanged. -/
theorem c6_idempotent (env : AnalysisEnv) (p : AnalysisParams) (db db1 : DB)
    (res1 : AnalysisResults)
    (h : runAnalysis env p db = .ok (db1, res1)) :
    ∃ db2 res2, runAnalysis env p db1 = .ok (db2, res2) ∧
      res2.issuesCreated = 0 ∧ db2.issues = db1.issues := by
  simp only [runAnalysis] at h
  cases hpm : processMessages env db (db.tags.map (fun t => t.name))
      { messagesAnalyzed := 0, issuesCreated := 0, issuesReplied := 0, tagsCreated := 0 }
      (fetchMessages p db) with
  | error dbe =>
    simp only [hpm] at h
    exact Except.noConfusion h
  | ok triple =>
    obtain ⟨dbA, tnA, resA⟩ := triple
    simp only [hpm] at h
    cases hsl : sentimentLoop env dbA
        (dedupFirst ((fetchMessages p db).filterMap (fun m => m.customerId))) with
    | error dbe =>
      simp only [hsl] at h
      exact Except.noConfusion h
    | ok dbB =>
      simp only [hsl, Except.ok.injEq, Prod.mk.injEq] at h
      obtain ⟨hdbB, -⟩ := h
      subst hdbB
      obtain ⟨hAm, -, -, hAh⟩ :=
        processMessages_spec env (fetchMessages p db) db _ _ dbA tnA resA hpm
      obtain ⟨hBm, hBi⟩ := sentimentLoop_frame env _ dbA dbB hsl
      have hm1 : dbB.messages = db.messages := hBm.trans hAm
      have hmsgs1 : fetchMessages p dbB = fetchMessages p db :=
        fetchMessages_congr p db dbB hm1
      have hh1 : ∀ m ∈ fetchMessages p db, handled env dbB m := fun m hm =>
        handled_mono env dbA dbB m (hAh m hm)
          (fun t ht => by rw [hasIssueFor_congr dbA dbB hBi t]; exact ht)
      obtain ⟨res2, hpm2, hic⟩ := processMessages_handled env (fetchMessages p db) dbB
        (dbB.tags.map (fun t => t.name))
        { messagesAnalyzed := 0, issuesCreated := 0, issuesReplied := 0, tagsCreated := 0 }
        hh1
      obtain ⟨db2X, hsl2⟩ := sentimentLoop_ok_transfer env
        (dedupFirst ((fetchMessages p db).filterMap (fun m => m.customerId)))
        dbA dbB dbB hsl hBm
      refine ⟨db2X, res2, ?_, hic, (sentimentLoop_frame env _ dbB db2X hsl2).2⟩
      simp only [runAnalysis]
      rw [hmsgs1]
      simp only [hpm2, hsl2]

/-- Witness for `c6_idempotent`: after the first run over the two-message
batch created two Issues, the second run creates zero additional Issues. -/
theorem c6_idempotent_witness :
    ∃ db2 res2, runAnalysis quietEnv { groupId := none, since := none } c6Db1 =
        .ok (db2, res2) ∧
      res2.issuesCreated = 0 ∧ db2.issues = c6Db1.issues :=
  c6_idempotent quietEnv { groupId := none, since := none } batchDb c6Db1
    { messagesAnalyzed := 2, issuesCreated := 2, issuesReplied := 0, tagsCreated := 0 }
    (by rfl)

end LineBot
